import Mathlib

/-!
Shallow embedding of the batch-operation engine in
`service/worker/batcher/workflow.go` (package `batcher`) of the cadence
repository, together with theorems settling the frozen claims about it.

Conventions of the embedding:
* Go `int` / `int64` fields become `Int`; byte strings (`[]byte` page
  tokens) become `List Nat`; Go errors become `String` (only identity and
  the `EntityNotExistsError` type test matter to the code).
* `nil`-able pointers (`*bool`) become `Option Bool`.
* The external collaborators (service client, activity host, context)
  are oracles packaged in environment structures; each RPC result is a
  function of the call site data, mirroring the single call the code makes.
* Unbounded Go loops are given explicit fuel; exhausted fuel is the
  `none` result, distinguished from every behavior of the code.
-/

namespace Batcher

/-- Go errors are used by the engine only through their message string and
the `EntityNotExistsError` type assertion; plain strings model the former,
dedicated constructors the latter. -/
abbrev Err := String

/-- Embeds `shared.WorkflowExecution`: the (workflowID, runID) pair identifying a
target. -/
structure Target where
  workflowId : String
  runId : String
deriving DecidableEq, Repr

/-- Batch type constants, from the generated `shared.BatchOperationType`
enum (`Terminate`, `RequestCancel`, `Signal` in declaration order). Only
their distinctness is used by the engine. -/
def BatchTypeTerminate : Int := 0

/-- See `BatchTypeTerminate`. -/
def BatchTypeCancel : Int := 1

/-- See `BatchTypeTerminate`. -/
def BatchTypeSignal : Int := 2

/-- Constant `defaultRPS` of workflow.go. -/
def defaultRPS : Int := 50

/-- Constant `defaultRPSPerConcurrency` of workflow.go. -/
def defaultRPSPerConcurrency : Int := 10

/-- Constant `defaultAttemptsOnRetryableError` of workflow.go. -/
def defaultAttemptsOnRetryableError : Int := 50

/-- Constant `defaultActivityHeartBeatTimeout` (one minute), in
nanoseconds as Go `time.Duration` counts. -/
def defaultActivityHeartBeatTimeout : Int := 60 * 1000000000

/-- Constant `pageSize` of workflow.go. -/
def pageSize : Int := 1000

/-- Embeds `TerminateParams`: parameters only for `BatchTypeTerminate`.
`TerminateChildren *bool` is an optional boolean. -/
structure TerminateParams where
  terminateChildren : Option Bool
deriving DecidableEq, Repr

/-- Embeds `CancelParams`: parameters only for `BatchTypeCancel`.
`CancelChildren *bool` is an optional boolean. -/
structure CancelParams where
  cancelChildren : Option Bool
deriving DecidableEq, Repr

/-- Embeds `SignalParams`: parameters only for `BatchTypeSignal`. -/
structure SignalParams where
  signalName : String
  input : String
deriving DecidableEq, Repr

/-- Embeds `BatchParams`: the input of the batch workflow/activity.
`nonRetryableErrorsSet` embeds the internal `_nonRetryableErrors`
map (a set of strings, queried only through membership). -/
structure BatchParams where
  domainName : String
  query : String
  reason : String
  batchType : Int
  terminateParams : TerminateParams
  cancelParams : CancelParams
  signalParams : SignalParams
  rps : Int
  concurrency : Int
  attemptsOnRetryableError : Int
  activityHeartBeatTimeout : Int
  nonRetryableErrors : List String
  nonRetryableErrorsSet : List String
deriving DecidableEq, Repr

/-- Embeds `HeartBeatDetails`: the progress record round-tripped through activity
heartbeats. -/
structure HeartBeatDetails where
  pageToken : List Nat
  currentPage : Int
  totalEstimate : Int
  successCount : Int
  errorCount : Int
deriving DecidableEq, Repr

/-- The Go zero value `HeartBeatDetails{}`. -/
def zeroHBD : HeartBeatDetails :=
  { pageToken := [], currentPage := 0, totalEstimate := 0,
    successCount := 0, errorCount := 0 }

/-- Embeds `taskDetail`: a work item of one target plus its retry count and the
snapshot of the heartbeat state at enqueue time. -/
structure TaskDetail where
  execution : Target
  attempts : Int
  hbd : HeartBeatDetails
deriving DecidableEq, Repr

/-- Embeds `validateParams` (workflow.go lines 179-198): rejects missing required
fields, then dispatches on the batch type; `Signal` additionally requires a
signal name; unknown types are rejected. -/
def validateParams (params : BatchParams) : Except Err Unit :=
  if params.reason = "" ∨ params.domainName = "" ∨ params.query = "" then
    .error "must provide required parameters: BatchType/Reason/DomainName/Query"
  else if params.batchType = BatchTypeSignal then
    if params.signalParams.signalName = "" then
      .error "must provide signal name"
    else
      .ok ()
  else if params.batchType = BatchTypeCancel ∨ params.batchType = BatchTypeTerminate then
    .ok ()
  else
    .error "not supported batch type"

/-- Embeds `setDefaultParams` (workflow.go lines 200-223), in source order:
default the RPS, the concurrency (integer division of the possibly
defaulted RPS), the retry budget, the heartbeat timeout; materialize the
non-retryable error set when the list is non-empty; default
`TerminateParams.TerminateChildren` to true when unset. Note the source
sets no default for `CancelParams.CancelChildren`. -/
def setDefaultParams (params : BatchParams) : BatchParams :=
  let p1 := if params.rps ≤ 0 then { params with rps := defaultRPS } else params
  let p2 := if p1.concurrency ≤ 0 then
      { p1 with concurrency := p1.rps / defaultRPSPerConcurrency } else p1
  let p3 := if p2.attemptsOnRetryableError ≤ 0 then
      { p2 with attemptsOnRetryableError := defaultAttemptsOnRetryableError } else p2
  let p4 := if p3.activityHeartBeatTimeout ≤ 0 then
      { p3 with activityHeartBeatTimeout := defaultActivityHeartBeatTimeout } else p3
  let p5 := if p4.nonRetryableErrors.length > 0 then
      { p4 with nonRetryableErrorsSet := p4.nonRetryableErrors } else p4
  let p6 := if p5.terminateParams.terminateChildren = none then
      { p5 with terminateParams := { terminateChildren := some true } } else p5
  p6

/-- Outcome of one mutation RPC (`procFn`), as the worker distinguishes
them: success, the `EntityNotExistsError` type, or any other error. -/
inductive MutateRes
  | ok
  | entityNotExists
  | failed (e : Err)
deriving DecidableEq, Repr

/-- Outcome of one `DescribeWorkflowExecution` RPC: the pending-children
list, the `EntityNotExistsError` type, or any other error. -/
inductive DescribeRes
  | ok (pendingChildren : List Target)
  | entityNotExists
  | failed (e : Err)
deriving DecidableEq, Repr

/-- Environment of one `processTask` walk: the rate limiter wait (which
fails only on context cancellation), the per-type mutation RPC, and the
describe RPC. All are indexed by the walk iteration counter so a target
visited twice may answer differently. -/
structure WalkEnv where
  wait : Nat → Target → Option Err
  mutate : Nat → Target → MutateRes
  describe : Nat → Target → DescribeRes

/-- Observable outcome of a `processTask` walk: the Go return value
(`none` = nil error), the list of targets the mutation RPC was issued on in
order, the children appended to the worklist in order, and the heartbeats
recorded (each is the `task.hbd` snapshot). -/
structure WalkOut where
  result : Option Err
  mutateCalls : List Target
  enqueued : List Target
  heartbeats : List HeartBeatDetails
deriving DecidableEq, Repr

/-- Embeds `processTask` (workflow.go lines 377-430): the explicit worklist walk
over a root target and, when `applyOnChild` is `some true`, its pending
children transitively. Per node: rate-limiter wait (error aborts), mutation
(a non-`EntityNotExists` error aborts; `EntityNotExists` proceeds),
describe (`EntityNotExists` skips the children and the heartbeat via
`continue`; another error aborts), optional child enqueue, heartbeat of the
unchanged `task.hbd` snapshot. `fuel` bounds the iterations of the
unbounded Go loop; `none` means fuel ran out. -/
def processTask (env : WalkEnv) (applyOnChild : Option Bool) (hbd : HeartBeatDetails) :
    Nat → Nat → List Target → Option WalkOut
  | 0, _, _ => none
  | _ + 1, _, [] => some ⟨none, [], [], []⟩
  | fuel + 1, i, wf :: rest =>
    match env.wait i wf with
    | some e => some ⟨some e, [], [], []⟩
    | none =>
      match env.mutate i wf with
      | .failed e => some ⟨some e, [wf], [], []⟩
      | _ =>
        match env.describe i wf with
        | .failed e => some ⟨some e, [wf], [], []⟩
        | .entityNotExists =>
          (processTask env applyOnChild hbd fuel (i + 1) rest).map
            (fun o => ⟨o.result, wf :: o.mutateCalls, o.enqueued, o.heartbeats⟩)
        | .ok children =>
          let doChildren := applyOnChild = some true ∧ children ≠ []
          let newList := if doChildren then rest ++ children else rest
          let enq := if doChildren then children else []
          (processTask env applyOnChild hbd fuel (i + 1) newList).map
            (fun o => ⟨o.result, wf :: o.mutateCalls, enq ++ o.enqueued, hbd :: o.heartbeats⟩)

/-- Worker outcome report of `startTaskProcessor` (workflow.go lines
357-372) after one `processTask` call returning `res`: success reports nil
on the response channel; an error is terminal when its message is in the
non-retryable set or the attempt count has reached the retry budget, and is
otherwise re-enqueued with the attempt count incremented. -/
inductive WorkerReport
  | success
  | terminal (e : Err)
  | requeue (task : TaskDetail)
deriving DecidableEq, Repr

/-- The retry decision of `startTaskProcessor` on one task result; see
`WorkerReport`. -/
def handleTaskResult (params : BatchParams) (task : TaskDetail) (res : Option Err) :
    WorkerReport :=
  match res with
  | none => .success
  | some e =>
    if params.nonRetryableErrorsSet.contains e ∨ params.attemptsOnRetryableError ≤ task.attempts then
      .terminal e
    else
      .requeue { task with attempts := task.attempts + 1 }

/-- The `applyOnChild` argument the `startTaskProcessor` switch (workflow.go
lines 337-356) passes to `processTask` for each batch type: the
`TerminateChildren` pointer for terminate, the `CancelChildren` pointer for
cancel, `common.BoolPtr(false)` for signal; for any other type the switch
has no case and `processTask` is never called (`none`). -/
def workerApplyPolicy (params : BatchParams) : Option (Option Bool) :=
  if params.batchType = BatchTypeTerminate then some params.terminateParams.terminateChildren
  else if params.batchType = BatchTypeCancel then some params.cancelParams.cancelChildren
  else if params.batchType = BatchTypeSignal then some (some false)
  else none

/-- Number of mutation invocations on a single task whose mutation always
fails with the fixed error `e`, following the worker retry loop: each
iteration is one invocation, and the task is re-enqueued until
`handleTaskResult` reports it terminal. Returns the invocation count, or
`none` if `fuel` iterations did not reach a terminal report. -/
def retrySimulation (params : BatchParams) (e : Err) :
    Nat → TaskDetail → Nat → Option Nat
  | 0, _, _ => none
  | fuel + 1, task, count =>
    match handleTaskResult params task (some e) with
    | .success => some count
    | .terminal _ => some (count + 1)
    | .requeue t2 => retrySimulation params e fuel t2 (count + 1)

/-- One `ScanWorkflow` response: the page of executions and the cursor for
the next page. -/
structure ScanResp where
  executions : List Target
  nextPageToken : List Nat
deriving DecidableEq, Repr

/-- Environment of one `BatchActivity` invocation: the `CountWorkflow`
result, the `ScanWorkflow` response as a function of the page token passed,
whether the context is cancelled while the dispatcher waits on the response
channel of page `i`, and the terminal outcome (true = success reported on
the response channel) of each target of page `i`. The outcome abstraction
is faithful to the channel protocol: every task sent for a page eventually
yields exactly one terminal response on the response channel. -/
structure DispatchEnv where
  countResult : Except Err Int
  scan : List Nat → Except Err ScanResp
  cancelDuringCollect : Nat → Option Err
  outcome : Nat → Target → Bool

/-- State of the activity host heartbeat store at activity entry:
no details recorded, details present but `GetHeartbeatDetails` fails, or
details restored successfully. -/
inductive RestoreState
  | noDetails
  | restoreFailed (e : Err)
  | restored (hbd : HeartBeatDetails)
deriving DecidableEq, Repr

/-- Entry of `BatchActivity` (workflow.go lines 230-250): restore the
heartbeat details when present; on absence or restore failure start over,
calling `CountWorkflow` and storing its count as `TotalEstimate` (a count
failure is returned as the activity error). The boolean records whether
`CountWorkflow` was called. -/
def activityInit (countResult : Except Err Int) (restore : RestoreState) :
    Except Err HeartBeatDetails × Bool :=
  match restore with
  | .restored hbd => (.ok hbd, false)
  | _ =>
    match countResult with
    | .error e => (.error e, true)
    | .ok c => (.ok { zeroHBD with totalEstimate := c }, true)

/-- Result of one iteration of the dispatcher main loop: `finished` is the
`break` path returning the state with a nil error, `failed` is a return
with an error, `next` continues the loop with the updated state. -/
inductive StepResult
  | finished (hbd : HeartBeatDetails)
  | failed (e : Err)
  | next (hbd : HeartBeatDetails)
deriving DecidableEq, Repr

/-- The state update at the end of one non-empty page (workflow.go lines
304-307): bump the page counter, advance the cursor, and add the page
tallies — the success tally is the number of targets of the page whose
terminal outcome was success, the error tally the number whose terminal
outcome was an error. -/
def pageUpdate (env : DispatchEnv) (i : Nat) (hbd : HeartBeatDetails)
    (resp : ScanResp) : HeartBeatDetails :=
  let outs := resp.executions.map (env.outcome i)
  { hbd with
    currentPage := hbd.currentPage + 1,
    pageToken := resp.nextPageToken,
    successCount := hbd.successCount + ((outs.filter (fun b => b)).length : Int),
    errorCount := hbd.errorCount + ((outs.filter (fun b => !b)).length : Int) }

/-- One iteration of the `BatchActivity` main loop (workflow.go lines
258-313): scan at the current page token (an error is returned); an empty
page breaks out with the current state; otherwise collect one terminal
outcome per target on the response channel (context cancellation during
the wait returns `ctx.Err()`), bump the page counter, advance the cursor,
add the success and error tallies, and record a heartbeat of the new
state; the loop breaks out when the new page token is empty. Also returns
the heartbeats recorded during the iteration. -/
def loopIter (env : DispatchEnv) (i : Nat) (hbd : HeartBeatDetails) :
    StepResult × List HeartBeatDetails :=
  match env.scan hbd.pageToken with
  | .error e => (.failed e, [])
  | .ok resp =>
    if resp.executions.length = 0 then (.finished hbd, [])
    else
      match env.cancelDuringCollect i with
      | some e => (.failed e, [])
      | none =>
        let hbd2 := pageUpdate env i hbd resp
        if resp.nextPageToken.length = 0 then (.finished hbd2, [hbd2])
        else (.next hbd2, [hbd2])

/-- The `BatchActivity` main loop iterated, with `fuel` bounding the number
of iterations (the Go loop is unbounded). Returns the Go return pair — the
state with a nil error on the `break` paths, `HeartBeatDetails{}` with the
error on the error paths — together with the scan tokens used in order and
the heartbeats recorded in order. Exhausted fuel stops with the state so
far and a nil error. -/
def batchLoop (env : DispatchEnv) :
    Nat → Nat → HeartBeatDetails →
    (HeartBeatDetails × Option Err) × List (List Nat) × List HeartBeatDetails
  | 0, _, hbd => ((hbd, none), [], [])
  | fuel + 1, i, hbd =>
    match loopIter env i hbd with
    | (.failed e, hbs) => ((zeroHBD, some e), [hbd.pageToken], hbs)
    | (.finished h, hbs) => ((h, none), [hbd.pageToken], hbs)
    | (.next h, hbs) =>
      let r := batchLoop env fuel (i + 1) h
      (r.1, hbd.pageToken :: r.2.1, hbs ++ r.2.2)

/-- Trace of one `BatchActivity` invocation: whether `CountWorkflow` was
called, the page tokens passed to `ScanWorkflow` in order, and the
heartbeats recorded by the dispatcher in order. -/
structure ActivityTrace where
  countCalled : Bool
  scanTokens : List (List Nat)
  heartbeats : List HeartBeatDetails
deriving DecidableEq, Repr

/-- Embeds `BatchActivity` (workflow.go lines 226-316): entry restore/count
followed by the main loop. -/
def batchActivity (env : DispatchEnv) (restore : RestoreState) (fuel : Nat) :
    (HeartBeatDetails × Option Err) × ActivityTrace :=
  match activityInit env.countResult restore with
  | (.error e, counted) => ((zeroHBD, some e), ⟨counted, [], []⟩)
  | (.ok hbd0, counted) =>
    let r := batchLoop env fuel 0 hbd0
    (r.1, ⟨counted, r.2.1, r.2.2⟩)

/-! Concrete fixtures used by closed theorems and witnesses. -/

/-- A concrete root target. -/
def rootT : Target := ⟨"root-wf", "run-0"⟩

/-- A concrete child target. -/
def childA : Target := ⟨"child-a", "run-a"⟩

/-- A concrete child target. -/
def childB : Target := ⟨"child-b", "run-b"⟩

/-- A cancel request leaving every optional field unset. -/
def sampleParams : BatchParams :=
  { domainName := "dom", query := "q", reason := "r",
    batchType := BatchTypeCancel,
    terminateParams := { terminateChildren := none },
    cancelParams := { cancelChildren := none },
    signalParams := { signalName := "", input := "" },
    rps := 0, concurrency := 0, attemptsOnRetryableError := 0,
    activityHeartBeatTimeout := 0,
    nonRetryableErrors := [], nonRetryableErrorsSet := [] }

/-- A walk environment in which every mutation succeeds and every describe
reports two pending children. -/
def cancelWalkEnv : WalkEnv :=
  { wait := fun _ _ => none,
    mutate := fun _ _ => .ok,
    describe := fun _ t => if t = rootT then .ok [childA, childB] else .ok [] }

/-- Parameters with a retry budget of 3 and an empty non-retryable set. -/
def retryParams : BatchParams :=
  { sampleParams with batchType := BatchTypeTerminate, attemptsOnRetryableError := 3 }

/-- A task on the root target with the given attempt count. -/
def retryTask (a : Int) : TaskDetail := ⟨rootT, a, zeroHBD⟩

/-- The environment of `cancelWalkEnv` with the mutation on the root
answering `EntityNotExistsError`. -/
def eneMutateEnv : WalkEnv :=
  { cancelWalkEnv with
    mutate := fun _ t => if t = rootT then .entityNotExists else .ok }

/-- The environment of `cancelWalkEnv` with the describe on the root
answering `EntityNotExistsError`. -/
def eneDescribeEnv : WalkEnv :=
  { cancelWalkEnv with
    describe := fun _ t => if t = rootT then .entityNotExists else .ok [] }

/-- The environment of `cancelWalkEnv` with the mutation on the root
failing with a non-`EntityNotExists` error. -/
def failMutateEnv : WalkEnv :=
  { cancelWalkEnv with
    mutate := fun _ t => if t = rootT then .failed "boom" else .ok }

/-- The environment of `cancelWalkEnv` with the describe on the root
failing with a non-`EntityNotExists` error. -/
def failDescribeEnv : WalkEnv :=
  { cancelWalkEnv with
    describe := fun _ t => if t = rootT then .failed "dead" else .ok [] }

/-- A dispatch environment whose scan returns one two-target page from the
empty token and the empty page from any other token; the root target
succeeds and every other target fails terminally. -/
def onePageEnv : DispatchEnv :=
  { countResult := .ok 2,
    scan := fun tok => if tok = [] then .ok ⟨[rootT, childA], [5]⟩ else .ok ⟨[], []⟩,
    cancelDuringCollect := fun _ => none,
    outcome := fun _ t => t = rootT }

/-- A dispatch environment whose scan always fails. -/
def scanFailEnv : DispatchEnv :=
  { onePageEnv with scan := fun _ => .error "scan-down" }

/-- Builds `env` with the mutation answer at iteration `i` on target `wf`
replaced by plain success. -/
def withMutateOk (env : WalkEnv) (i : Nat) (wf : Target) : WalkEnv :=
  { env with
    mutate := fun j t => if j = i ∧ t = wf then .ok else env.mutate j t }

/-! Theorems. -/

/-- C8: `validateParams` returns an error exactly when `reason`, `domain`,
or `query` is empty, when the batch type is not one of
terminate/cancel/signal, or when the type is signal and the signal name is
empty; every other input is accepted. -/
theorem validateParams_error_iff (params : BatchParams) :
    (∃ e, validateParams params = .error e) ↔
      params.reason = "" ∨ params.domainName = "" ∨ params.query = "" ∨
      (params.batchType ≠ BatchTypeTerminate ∧ params.batchType ≠ BatchTypeCancel ∧
        params.batchType ≠ BatchTypeSignal) ∨
      (params.batchType = BatchTypeSignal ∧ params.signalParams.signalName = "") := by
  unfold validateParams
  split_ifs with h1 h2 h3 h4 <;> simp_all <;> tauto

/-- C1 (counter-evidence, code evaluated at the failing input): for a
cancel request whose `CancelChildren` field is unset, `setDefaultParams`
leaves the field unset — contrary to the claim it never turns it into
`some true` — the worker therefore passes an unset policy to
`processTask`, and the walk does not enqueue the pending children the
describe reports. -/
theorem cancel_unset_children_not_walked :
    (setDefaultParams sampleParams).cancelParams.cancelChildren = none ∧
    workerApplyPolicy (setDefaultParams sampleParams) = some none ∧
    processTask cancelWalkEnv none zeroHBD 4 0 [rootT] =
      some ⟨none, [rootT], [], [zeroHBD]⟩ := by decide

/-- C3 (counter-evidence, code evaluated at the failing input): for a
request with positive `rps = 5` and unset concurrency, `setDefaultParams`
sets the concurrency to `5 / 10 = 0`, not to `max(1, rps / 10) = 1`. -/
theorem small_rps_default_concurrency_zero :
    (0 : Int) < 5 ∧
    (setDefaultParams { sampleParams with rps := 5 }).concurrency = 0 := by decide

/-- C2 (counterexample): with a retry budget of 3 and a retryable error,
the worker at `task.attempts = 2 = max_attempts − 1` re-enqueues the task
instead of reporting the error terminal as the claim states, and the
always-failing mutation is invoked 4 times, not 3, before the error is
reported terminally. -/
theorem retryable_requeued_at_max_minus_one :
    retryParams.attemptsOnRetryableError = 3 ∧
    retryParams.nonRetryableErrorsSet.contains "transient" = false ∧
    handleTaskResult retryParams (retryTask 2) (some "transient") = .requeue (retryTask 3) ∧
    retrySimulation retryParams "transient" 10 (retryTask 0) 0 = some 4 ∧
    (4 : Nat) ≠ 3 := by decide

/-- C2 (amended): the worker reports a failed task terminal exactly when
the error message is in the non-retryable set or `task.attempts ≥
max_attempts`, and otherwise re-enqueues it with `attempts + 1`;
consequently with `max_attempts = 3` an always-retryably-failing mutation
is invoked exactly 4 times before the error count is incremented. -/
theorem terminal_iff_nonretryable_or_budget (params : BatchParams)
    (task : TaskDetail) (e : Err) :
    (handleTaskResult params task (some e) = .terminal e ↔
      params.nonRetryableErrorsSet.contains e = true ∨
      params.attemptsOnRetryableError ≤ task.attempts) ∧
    (handleTaskResult params task (some e) =
        .requeue { task with attempts := task.attempts + 1 } ↔
      ¬ (params.nonRetryableErrorsSet.contains e = true ∨
        params.attemptsOnRetryableError ≤ task.attempts)) ∧
    retrySimulation retryParams "transient" 10 (retryTask 0) 0 = some 4 := by
  refine ⟨?_, ?_, by decide⟩ <;>
    · simp only [handleTaskResult]
      split_ifs with h <;> simp_all

/-- C7: for a signal batch the worker hands `processTask` the policy
`some false` whatever the terminate/cancel children fields hold, and a walk
under that policy enqueues no child and issues at most one mutation RPC —
exactly one, on the root, whenever the rate limiter wait is not
cancelled. -/
theorem signal_never_recurses :
    (∀ params : BatchParams, params.batchType = BatchTypeSignal →
      workerApplyPolicy params = some (some false)) ∧
    ∀ (env : WalkEnv) (hbd : HeartBeatDetails) (fuel i : Nat) (root : Target)
      (out : WalkOut),
      processTask env (some false) hbd fuel i [root] = some out →
      out.enqueued = [] ∧ out.mutateCalls.length ≤ 1 ∧
      (env.wait i root = none → out.mutateCalls = [root]) := by
  constructor
  · intro params h
    simp [workerApplyPolicy, h, BatchTypeSignal, BatchTypeTerminate, BatchTypeCancel]
  · intro env hbd fuel i root out h
    match fuel with
    | 0 => simp [processTask] at h
    | n + 1 =>
      cases hw : env.wait i root with
      | some e =>
        simp only [processTask, hw] at h
        injection h with h
        subst h
        refine ⟨rfl, by simp, fun hn => ?_⟩
        simp [hw] at hn
      | none =>
        cases hm : env.mutate i root with
        | failed e =>
          simp only [processTask, hw, hm] at h
          injection h with h
          subst h
          exact ⟨rfl, by simp, fun _ => rfl⟩
        | ok =>
          cases hd : env.describe i root with
          | failed e =>
            simp only [processTask, hw, hm, hd] at h
            injection h with h
            subst h
            exact ⟨rfl, by simp, fun _ => rfl⟩
          | entityNotExists =>
            cases n with
            | zero => simp [processTask, hw, hm, hd] at h
            | succ m =>
              simp [processTask, hw, hm, hd] at h
              subst h
              exact ⟨rfl, by simp, fun _ => rfl⟩
          | ok children =>
            cases n with
            | zero => simp [processTask, hw, hm, hd] at h
            | succ m =>
              simp [processTask, hw, hm, hd] at h
              subst h
              exact ⟨rfl, by simp, fun _ => rfl⟩
        | entityNotExists =>
          cases hd : env.describe i root with
          | failed e =>
            simp only [processTask, hw, hm, hd] at h
            injection h with h
            subst h
            exact ⟨rfl, by simp, fun _ => rfl⟩
          | entityNotExists =>
            cases n with
            | zero => simp [processTask, hw, hm, hd] at h
            | succ m =>
              simp [processTask, hw, hm, hd] at h
              subst h
              exact ⟨rfl, by simp, fun _ => rfl⟩
          | ok children =>
            cases n with
            | zero => simp [processTask, hw, hm, hd] at h
            | succ m =>
              simp [processTask, hw, hm, hd] at h
              subst h
              exact ⟨rfl, by simp, fun _ => rfl⟩

/-- Witness for `signal_never_recurses` at a concrete signal request and a
concrete walk whose describe reports two pending children. -/
theorem signal_never_recurses_witness :
    workerApplyPolicy { sampleParams with batchType := BatchTypeSignal } = some (some false) ∧
    (⟨none, [rootT], [], [zeroHBD]⟩ : WalkOut).enqueued = [] ∧
    (⟨none, [rootT], [], [zeroHBD]⟩ : WalkOut).mutateCalls = [rootT] :=
  ⟨signal_never_recurses.1 _ rfl,
   (signal_never_recurses.2 cancelWalkEnv zeroHBD 4 0 rootT _ (by decide)).1,
   (signal_never_recurses.2 cancelWalkEnv zeroHBD 4 0 rootT _ (by decide)).2.2 rfl⟩

/-- The walk result depends only on the environment at iteration indices
from the starting index on: two environments agreeing there produce equal
walks. -/
lemma processTask_agree (env env2 : WalkEnv) (a : Option Bool) (hbd : HeartBeatDetails) :
    ∀ (fuel k : Nat),
      (∀ j, k ≤ j → env.wait j = env2.wait j ∧ env.mutate j = env2.mutate j ∧
        env.describe j = env2.describe j) →
      ∀ l, processTask env a hbd fuel k l = processTask env2 a hbd fuel k l := by
  intro fuel
  induction fuel with
  | zero => intro k _ l; rfl
  | succ n ih =>
    intro k hagree l
    obtain ⟨hwa, hma, hda⟩ := hagree k le_rfl
    have hnext : ∀ j, k + 1 ≤ j → env.wait j = env2.wait j ∧ env.mutate j = env2.mutate j ∧
        env.describe j = env2.describe j := fun j hj => hagree j (Nat.le_of_succ_le hj)
    match l with
    | [] => rfl
    | wf :: rest =>
      simp only [processTask, ← hwa, ← hma, ← hda]
      cases hw : env.wait k wf with
      | some e => rfl
      | none =>
        cases hm : env.mutate k wf with
        | failed e => rfl
        | ok =>
          cases hd : env.describe k wf with
          | failed e => rfl
          | entityNotExists => simp [ih (k + 1) hnext]
          | ok children => simp [ih (k + 1) hnext]
        | entityNotExists =>
          cases hd : env.describe k wf with
          | failed e => rfl
          | entityNotExists => simp [ih (k + 1) hnext]
          | ok children => simp [ih (k + 1) hnext]

/-- C6: in the child walk, a mutation answering `EntityNotExists` is
treated as success for that node — the walk is identical to one in which
that mutation plainly succeeded; a describe answering `EntityNotExists`
skips that node's children (and its heartbeat) while the node itself counts
as done; any other error from the mutation or the describe aborts the task
with exactly that error. -/
theorem child_walk_entity_not_exists :
    (∀ (env : WalkEnv) (a : Option Bool) (hbd : HeartBeatDetails) (fuel i : Nat)
       (wf : Target) (rest : List Target),
      env.mutate i wf = .entityNotExists →
      processTask env a hbd fuel i (wf :: rest) =
        processTask (withMutateOk env i wf) a hbd fuel i (wf :: rest)) ∧
    (∀ (env : WalkEnv) (a : Option Bool) (hbd : HeartBeatDetails) (fuel i : Nat)
       (wf : Target) (rest : List Target),
      env.wait i wf = none →
      (env.mutate i wf = .ok ∨ env.mutate i wf = .entityNotExists) →
      env.describe i wf = .entityNotExists →
      processTask env a hbd (fuel + 1) i (wf :: rest) =
        (processTask env a hbd fuel (i + 1) rest).map
          (fun o => ⟨o.result, wf :: o.mutateCalls, o.enqueued, o.heartbeats⟩)) ∧
    (∀ (env : WalkEnv) (a : Option Bool) (hbd : HeartBeatDetails) (fuel i : Nat)
       (wf : Target) (rest : List Target) (e : Err),
      env.wait i wf = none →
      env.mutate i wf = .failed e →
      processTask env a hbd (fuel + 1) i (wf :: rest) = some ⟨some e, [wf], [], []⟩) ∧
    (∀ (env : WalkEnv) (a : Option Bool) (hbd : HeartBeatDetails) (fuel i : Nat)
       (wf : Target) (rest : List Target) (e : Err),
      env.wait i wf = none →
      (env.mutate i wf = .ok ∨ env.mutate i wf = .entityNotExists) →
      env.describe i wf = .failed e →
      processTask env a hbd (fuel + 1) i (wf :: rest) = some ⟨some e, [wf], [], []⟩) := by
  refine ⟨?_, ?_, ?_, ?_⟩
  · intro env a hbd fuel i wf rest hm
    match fuel with
    | 0 => rfl
    | n + 1 =>
      have hwait : (withMutateOk env i wf).wait = env.wait := rfl
      have hdesc : (withMutateOk env i wf).describe = env.describe := rfl
      have hmut : (withMutateOk env i wf).mutate i wf = .ok := by simp [withMutateOk]
      have hag : ∀ j, i + 1 ≤ j →
          env.wait j = (withMutateOk env i wf).wait j ∧
          env.mutate j = (withMutateOk env i wf).mutate j ∧
          env.describe j = (withMutateOk env i wf).describe j := by
        intro j hj
        refine ⟨rfl, ?_, rfl⟩
        funext t
        have hne : j ≠ i := by omega
        simp [withMutateOk, hne]
      simp only [processTask, hwait, hdesc]
      cases hw : env.wait i wf with
      | some e => rfl
      | none =>
        rw [hm, hmut]
        cases hd : env.describe i wf with
        | failed e => rfl
        | entityNotExists =>
          simp only [processTask_agree env (withMutateOk env i wf) a hbd n (i + 1) hag]
        | ok children =>
          simp only [processTask_agree env (withMutateOk env i wf) a hbd n (i + 1) hag]
  · intro env a hbd fuel i wf rest hw hmok hd
    simp only [processTask]
    rw [hw]
    rcases hmok with hm | hm <;> rw [hm, hd]
  · intro env a hbd fuel i wf rest e hw hm
    simp only [processTask]
    rw [hw, hm]
  · intro env a hbd fuel i wf rest e hw hmok hd
    simp only [processTask]
    rw [hw]
    rcases hmok with hm | hm <;> rw [hm, hd]

/-- Witness for `child_walk_entity_not_exists` at concrete walks: a root
whose mutation answers `EntityNotExists`, a root whose describe answers
`EntityNotExists`, and roots whose mutation or describe fail with another
error. -/
theorem child_walk_entity_not_exists_witness :
    (processTask eneMutateEnv (some true) zeroHBD 6 0 [rootT] =
      processTask (withMutateOk eneMutateEnv 0 rootT) (some true) zeroHBD 6 0 [rootT]) ∧
    (processTask eneDescribeEnv (some true) zeroHBD 3 0 [rootT] =
      (processTask eneDescribeEnv (some true) zeroHBD 2 1 []).map
        (fun o => ⟨o.result, rootT :: o.mutateCalls, o.enqueued, o.heartbeats⟩)) ∧
    (processTask failMutateEnv (some true) zeroHBD 3 0 [rootT] =
      some ⟨some "boom", [rootT], [], []⟩) ∧
    (processTask failDescribeEnv (some true) zeroHBD 3 0 [rootT] =
      some ⟨some "dead", [rootT], [], []⟩) :=
  ⟨child_walk_entity_not_exists.1 eneMutateEnv (some true) zeroHBD 6 0 rootT [] (by decide),
   child_walk_entity_not_exists.2.1 eneDescribeEnv (some true) zeroHBD 2 0 rootT []
     rfl (Or.inl (by decide)) (by decide),
   child_walk_entity_not_exists.2.2.1 failMutateEnv (some true) zeroHBD 2 0 rootT [] "boom"
     rfl (by decide),
   child_walk_entity_not_exists.2.2.2 failDescribeEnv (some true) zeroHBD 2 0 rootT [] "dead"
     rfl (Or.inl (by decide)) (by decide)⟩

/-- C5: per iteration of the dispatcher main loop, given the scan at the
current cursor answers `resp`: an empty page finishes successfully with the
current state and no heartbeat; the `finished` outcome is the successful
return of the loop driver; a non-empty page without cancellation collects
exactly one outcome per target, produces the state updated by exactly the
four listed fields, emits one heartbeat carrying that new state, and
finishes successfully exactly when the next page token is empty. -/
theorem page_step_update (env : DispatchEnv) (i : Nat) (hbd : HeartBeatDetails)
    (resp : ScanResp) (hscan : env.scan hbd.pageToken = .ok resp) :
    (resp.executions = [] → loopIter env i hbd = (.finished hbd, [])) ∧
    (∀ fuel h2 hbs, loopIter env i hbd = (.finished h2, hbs) →
      batchLoop env (fuel + 1) i hbd = ((h2, none), [hbd.pageToken], hbs)) ∧
    (resp.executions ≠ [] → env.cancelDuringCollect i = none →
      (resp.executions.map (env.outcome i)).length = resp.executions.length ∧
      pageUpdate env i hbd resp =
        { pageToken := resp.nextPageToken,
          currentPage := hbd.currentPage + 1,
          totalEstimate := hbd.totalEstimate,
          successCount := hbd.successCount +
            (((resp.executions.map (env.outcome i)).filter (fun b => b)).length : Int),
          errorCount := hbd.errorCount +
            (((resp.executions.map (env.outcome i)).filter (fun b => !b)).length : Int) } ∧
      loopIter env i hbd =
        (if resp.nextPageToken = [] then .finished (pageUpdate env i hbd resp)
          else .next (pageUpdate env i hbd resp),
         [pageUpdate env i hbd resp])) := by
  refine ⟨?_, ?_, ?_⟩
  · intro hempty
    simp [loopIter, hscan, hempty]
  · intro fuel h2 hbs hiter
    simp [batchLoop, hiter]
  · intro hne hcancel
    refine ⟨by simp, by simp [pageUpdate], ?_⟩
    have hlen : resp.executions.length ≠ 0 := by simpa using hne
    simp only [loopIter, hscan, hlen, if_neg, hcancel]
    rcases htok : resp.nextPageToken with _ | ⟨b, bs⟩ <;> simp [htok]

/-- Witness for `page_step_update` at the concrete one-page environment:
the two-target page with one success and one failure advances the state to
page 1 with cursor `[5]` and tallies 1/1, emitting that heartbeat. -/
theorem page_step_update_witness :
    loopIter onePageEnv 0 zeroHBD =
      (.next ⟨[5], 1, 0, 1, 1⟩, [(⟨[5], 1, 0, 1, 1⟩ : HeartBeatDetails)]) := by
  have h := (page_step_update onePageEnv 0 zeroHBD ⟨[rootT, childA], [5]⟩
    rfl).2.2 (by decide) rfl
  rw [h.2.2]
  decide

/-- Every heartbeat recorded by a child walk is the unchanged snapshot the
task carried. -/
lemma processTask_heartbeats (env : WalkEnv) (a : Option Bool) (hbd : HeartBeatDetails) :
    ∀ (fuel i : Nat) (l : List Target) (out : WalkOut),
      processTask env a hbd fuel i l = some out →
      ∀ h ∈ out.heartbeats, h = hbd := by
  intro fuel
  induction fuel with
  | zero => intro i l out h; simp [processTask] at h
  | succ n ih =>
    intro i l out h
    match l with
    | [] =>
      simp only [processTask] at h
      injection h with h
      subst h
      simp
    | wf :: rest =>
      cases hw : env.wait i wf with
      | some e =>
        simp only [processTask, hw] at h
        injection h with h
        subst h
        simp
      | none =>
        cases hm : env.mutate i wf with
        | failed e =>
          simp only [processTask, hw, hm] at h
          injection h with h
          subst h
          simp
        | ok =>
          cases hd : env.describe i wf with
          | failed e =>
            simp only [processTask, hw, hm, hd] at h
            injection h with h
            subst h
            simp
          | entityNotExists =>
            simp only [processTask, hw, hm, hd, Option.map_eq_some'] at h
            obtain ⟨o, ho, hout⟩ := h
            subst hout
            simpa using ih (i + 1) rest o ho
          | ok children =>
            simp only [processTask, hw, hm, hd, Option.map_eq_some'] at h
            obtain ⟨o, ho, hout⟩ := h
            subst hout
            intro h2 hmem
            simp at hmem
            rcases hmem with hmem | hmem
            · exact hmem
            · exact ih (i + 1) _ o ho h2 hmem
        | entityNotExists =>
          cases hd : env.describe i wf with
          | failed e =>
            simp only [processTask, hw, hm, hd] at h
            injection h with h
            subst h
            simp
          | entityNotExists =>
            simp only [processTask, hw, hm, hd, Option.map_eq_some'] at h
            obtain ⟨o, ho, hout⟩ := h
            subst hout
            simpa using ih (i + 1) rest o ho
          | ok children =>
            simp only [processTask, hw, hm, hd, Option.map_eq_some'] at h
            obtain ⟨o, ho, hout⟩ := h
            subst hout
            intro h2 hmem
            simp at hmem
            rcases hmem with hmem | hmem
            · exact hmem
            · exact ih (i + 1) _ o ho h2 hmem

/-- One loop iteration never changes `totalEstimate`: not in its non-failed
results and not in the heartbeats it emits. -/
lemma loopIter_totalEstimate (env : DispatchEnv) (i : Nat) (hbd : HeartBeatDetails) :
    (∀ h2, ((loopIter env i hbd).1 = .finished h2 ∨ (loopIter env i hbd).1 = .next h2) →
      h2.totalEstimate = hbd.totalEstimate) ∧
    (∀ h2 ∈ (loopIter env i hbd).2, h2.totalEstimate = hbd.totalEstimate) := by
  unfold loopIter
  cases hs : env.scan hbd.pageToken with
  | error e => simp
  | ok resp =>
    by_cases hlen : resp.executions.length = 0
    · simp [hlen]
    · cases hc : env.cancelDuringCollect i with
      | some e => simp [hlen, hc]
      | none =>
        by_cases htok : resp.nextPageToken.length = 0 <;>
          simp [hlen, hc, htok, pageUpdate]

/-- The loop driver, when it returns with a nil error, never changes
`totalEstimate` from the state it started at, nor do any of the heartbeats
it emitted. -/
lemma batchLoop_totalEstimate (env : DispatchEnv) :
    ∀ (fuel i : Nat) (hbd h : HeartBeatDetails) (toks : List (List Nat))
      (hbs : List HeartBeatDetails),
      batchLoop env fuel i hbd = ((h, none), toks, hbs) →
      h.totalEstimate = hbd.totalEstimate ∧
      ∀ h2 ∈ hbs, h2.totalEstimate = hbd.totalEstimate := by
  intro fuel
  induction fuel with
  | zero =>
    intro i hbd h toks hbs hrun
    have hh : hbd = h := congrArg (fun x => x.1.1) hrun
    have hb : ([] : List HeartBeatDetails) = hbs := congrArg (fun x => x.2.2) hrun
    rw [← hh, ← hb]
    exact ⟨rfl, by simp⟩
  | succ n ih =>
    intro i hbd h toks hbs hrun
    rcases hli : loopIter env i hbd with ⟨sr, ihbs⟩
    have hres := (loopIter_totalEstimate env i hbd).1
    have hhbs := (loopIter_totalEstimate env i hbd).2
    rw [hli] at hres hhbs
    cases sr with
    | failed e =>
      simp only [batchLoop, hli] at hrun
      have := congrArg (fun x => x.1.2) hrun
      simp at this
    | finished h1 =>
      simp only [batchLoop, hli] at hrun
      have hh : h1 = h := congrArg (fun x => x.1.1) hrun
      have hb : ihbs = hbs := congrArg (fun x => x.2.2) hrun
      rw [← hh, ← hb]
      exact ⟨hres h1 (Or.inl rfl), hhbs⟩
    | next h1 =>
      rcases hbl : batchLoop env n (i + 1) h1 with ⟨⟨h2, res2⟩, toks2, hbs2⟩
      simp only [batchLoop, hli, hbl] at hrun
      have hh : h2 = h := congrArg (fun x => x.1.1) hrun
      have hr : res2 = none := congrArg (fun x => x.1.2) hrun
      have hb : ihbs ++ hbs2 = hbs := congrArg (fun x => x.2.2) hrun
      rw [hr] at hbl
      have h1est : h1.totalEstimate = hbd.totalEstimate := hres h1 (Or.inr rfl)
      obtain ⟨hfin, hrest⟩ := ih (i + 1) h1 h2 toks2 hbs2 hbl
      rw [← hh, ← hb]
      refine ⟨by rw [hfin, h1est], ?_⟩
      intro h3 hmem
      rcases List.mem_append.mp hmem with hmem | hmem
      · exact hhbs h3 hmem
      · rw [hrest h3 hmem, h1est]

/-- C9: `totalEstimate` is written only at fresh start and never again: a
page update changes exactly the four listed fields and leaves it untouched;
no non-failed loop-iteration result and no emitted heartbeat changes it;
the loop driver returns it unchanged on every nil-error return; a worker
re-enqueue keeps the task snapshot (and target) unchanged; and every
heartbeat emitted inside a child walk is the unchanged task snapshot. -/
theorem total_estimate_frame :
    (∀ (env : DispatchEnv) (i : Nat) (hbd : HeartBeatDetails) (resp : ScanResp),
      (pageUpdate env i hbd resp).totalEstimate = hbd.totalEstimate) ∧
    (∀ (env : DispatchEnv) (i : Nat) (hbd : HeartBeatDetails) (h2 : HeartBeatDetails),
      ((loopIter env i hbd).1 = .finished h2 ∨ (loopIter env i hbd).1 = .next h2) →
      h2.totalEstimate = hbd.totalEstimate) ∧
    (∀ (env : DispatchEnv) (i : Nat) (hbd : HeartBeatDetails),
      ∀ h2 ∈ (loopIter env i hbd).2, h2.totalEstimate = hbd.totalEstimate) ∧
    (∀ (env : DispatchEnv) (fuel i : Nat) (hbd h : HeartBeatDetails)
      (toks : List (List Nat)) (hbs : List HeartBeatDetails),
      batchLoop env fuel i hbd = ((h, none), toks, hbs) →
      h.totalEstimate = hbd.totalEstimate ∧
      ∀ h2 ∈ hbs, h2.totalEstimate = hbd.totalEstimate) ∧
    (∀ (params : BatchParams) (task t2 : TaskDetail) (e : Err),
      handleTaskResult params task (some e) = .requeue t2 →
      t2.hbd = task.hbd ∧ t2.execution = task.execution) ∧
    (∀ (env : WalkEnv) (a : Option Bool) (hbd : HeartBeatDetails) (fuel i : Nat)
      (l : List Target) (out : WalkOut),
      processTask env a hbd fuel i l = some out →
      ∀ h ∈ out.heartbeats, h = hbd) := by
  refine ⟨fun env i hbd resp => rfl,
    fun env i hbd h2 => (loopIter_totalEstimate env i hbd).1 h2,
    fun env i hbd => (loopIter_totalEstimate env i hbd).2,
    fun env fuel i hbd h toks hbs => batchLoop_totalEstimate env fuel i hbd h toks hbs,
    ?_,
    fun env a hbd fuel i l out => processTask_heartbeats env a hbd fuel i l out⟩
  intro params task t2 e hreq
  simp only [handleTaskResult] at hreq
  by_cases hc : params.nonRetryableErrorsSet.contains e = true ∨
      params.attemptsOnRetryableError ≤ task.attempts
  · rw [if_pos hc] at hreq
    exact absurd hreq (by simp)
  · rw [if_neg hc] at hreq
    injection hreq with h2
    rw [← h2]
    exact ⟨rfl, rfl⟩

/-- Witness for `total_estimate_frame` at concrete runs: the loop driver on
the one-page environment keeps the zero estimate, and a concrete re-enqueue
keeps the task snapshot. -/
theorem total_estimate_frame_witness :
    (batchLoop onePageEnv 3 0 zeroHBD).1.1.totalEstimate = zeroHBD.totalEstimate ∧
    (retryTask 1).hbd = (retryTask 0).hbd :=
  ⟨(total_estimate_frame.2.2.2.1 onePageEnv 3 0 zeroHBD
      (batchLoop onePageEnv 3 0 zeroHBD).1.1 (batchLoop onePageEnv 3 0 zeroHBD).2.1
      (batchLoop onePageEnv 3 0 zeroHBD).2.2 (by decide)).1,
   (total_estimate_frame.2.2.2.2.1 retryParams (retryTask 0) (retryTask 1) "transient"
      (by decide)).1⟩

/-- The loop driver pairs every error return with the zero state. -/
lemma batchLoop_error_zero (env : DispatchEnv) :
    ∀ (fuel i : Nat) (hbd h : HeartBeatDetails) (e : Err) (toks : List (List Nat))
      (hbs : List HeartBeatDetails),
      batchLoop env fuel i hbd = ((h, some e), toks, hbs) → h = zeroHBD := by
  intro fuel
  induction fuel with
  | zero =>
    intro i hbd h e toks hbs hrun
    simp only [batchLoop] at hrun
    have := congrArg (fun x => x.1.2) hrun
    simp at this
  | succ n ih =>
    intro i hbd h e toks hbs hrun
    rcases hli : loopIter env i hbd with ⟨sr, ihbs⟩
    cases sr with
    | failed e2 =>
      simp only [batchLoop, hli] at hrun
      have hh : zeroHBD = h := congrArg (fun x => x.1.1) hrun
      exact hh.symm
    | finished h1 =>
      simp only [batchLoop, hli] at hrun
      have := congrArg (fun x => x.1.2) hrun
      simp at this
    | next h1 =>
      rcases hbl : batchLoop env n (i + 1) h1 with ⟨⟨h2, res2⟩, toks2, hbs2⟩
      simp only [batchLoop, hli, hbl] at hrun
      have hh : h2 = h := congrArg (fun x => x.1.1) hrun
      have hr : res2 = some e := congrArg (fun x => x.1.2) hrun
      rw [hr] at hbl
      rw [← hh]
      exact ih (i + 1) h1 h2 e toks2 hbs2 hbl

/-- C10: whenever the activity returns a non-nil error — count failure,
scan failure, or cancellation during a page wait — the state it returns is
the zero value; accumulated progress travels only in previously emitted
heartbeats. -/
theorem error_return_zero_state (env : DispatchEnv) (restore : RestoreState)
    (fuel : Nat) (h : HeartBeatDetails) (e : Err) (tr : ActivityTrace)
    (hrun : batchActivity env restore fuel = ((h, some e), tr)) : h = zeroHBD := by
  rcases hi : activityInit env.countResult restore with ⟨exc, counted⟩
  cases exc with
  | error e2 =>
    simp only [batchActivity, hi] at hrun
    have hh : zeroHBD = h := congrArg (fun x => x.1.1) hrun
    exact hh.symm
  | ok hbd0 =>
    rcases hbl : batchLoop env fuel 0 hbd0 with ⟨⟨h2, res2⟩, toks2, hbs2⟩
    simp only [batchActivity, hi, hbl] at hrun
    have hh : h2 = h := congrArg (fun x => x.1.1) hrun
    have hr : res2 = some e := congrArg (fun x => x.1.2) hrun
    rw [hr] at hbl
    rw [← hh]
    exact batchLoop_error_zero env fuel 0 hbd0 h2 e toks2 hbs2 hbl

/-- Witness for `error_return_zero_state`: the scan-failing environment
returns the zero state with its error. -/
theorem error_return_zero_state_witness :
    (batchActivity scanFailEnv .noDetails 3).1.1 = zeroHBD :=
  error_return_zero_state scanFailEnv .noDetails 3
    (batchActivity scanFailEnv .noDetails 3).1.1 "scan-down"
    (batchActivity scanFailEnv .noDetails 3).2 (by decide)

/-- C4: a successful heartbeat restore skips the count call and the first
scan of the run uses the restored page token; an absent heartbeat or a
failed restore starts fresh, with the count result as `totalEstimate`; and
a failed restore is never fatal — the run is identical to the fresh-start
run. -/
theorem restore_resume_or_fresh_start (env : DispatchEnv) (fuel : Nat)
    (d : HeartBeatDetails) (e : Err) (c : Int) :
    (batchActivity env (.restored d) fuel).2.countCalled = false ∧
    (1 ≤ fuel →
      (batchActivity env (.restored d) fuel).2.scanTokens.head? = some d.pageToken) ∧
    (env.countResult = .ok c →
      activityInit env.countResult .noDetails =
        (.ok { zeroHBD with totalEstimate := c }, true) ∧
      activityInit env.countResult (.restoreFailed e) =
        (.ok { zeroHBD with totalEstimate := c }, true)) ∧
    batchActivity env (.restoreFailed e) fuel = batchActivity env .noDetails fuel := by
  refine ⟨?_, ?_, ?_, ?_⟩
  · simp [batchActivity, activityInit]
  · intro hfuel
    match fuel, hfuel with
    | n + 1, _ =>
      simp only [batchActivity, activityInit]
      rcases hli : loopIter env 0 d with ⟨sr, ihbs⟩
      cases sr <;> simp [batchLoop, hli]
  · intro hc
    simp [activityInit, hc]
  · simp only [batchActivity]
    cases hc : env.countResult <;> simp [activityInit, hc]

/-- Witness for `restore_resume_or_fresh_start` at the one-page environment
and a concrete restored state with cursor `[5]`. -/
theorem restore_resume_or_fresh_start_witness :
    (batchActivity onePageEnv (.restored ⟨[5], 1, 7, 1, 0⟩) 2).2.countCalled = false ∧
    (batchActivity onePageEnv (.restored ⟨[5], 1, 7, 1, 0⟩) 2).2.scanTokens.head? =
      some [5] ∧
    activityInit onePageEnv.countResult .noDetails =
      (.ok { zeroHBD with totalEstimate := 2 }, true) :=
  ⟨(restore_resume_or_fresh_start onePageEnv 2 ⟨[5], 1, 7, 1, 0⟩ "x" 2).1,
   (restore_resume_or_fresh_start onePageEnv 2 ⟨[5], 1, 7, 1, 0⟩ "x" 2).2.1 (by decide),
   ((restore_resume_or_fresh_start onePageEnv 2 ⟨[5], 1, 7, 1, 0⟩ "x" 2).2.2.1 rfl).1⟩

end Batcher
